import Mathlib

set_option maxHeartbeats 1000000

/-! Shallow embedding of the debug-session layer of the adapter
(adapter/src/debugSession.ts): the PII-aware error formatter, error-response
construction, the request dispatcher with its default handlers, line/column
coordinate translation and path/URI translation, together with theorems about
their behavior. -/

/-- One step of the token scanner underlying the formatter regular expression
(an opening brace, one or more characters other than a closing brace, then a
closing brace): given the characters after an opening brace, returns the token
name together with the characters after the first closing brace, or none when
no closing brace follows. -/
def scanName : List Char → Option (List Char × List Char)
  | [] => none
  | c :: cs =>
    if c = '}' then some ([], cs)
    else
      match scanName cs with
      | some (nm, rest) => some (c :: nm, rest)
      | none => none

/-- Lookup of a template variable: JavaScript property access combined with the
hasOwnProperty guard, over an association-list model of the variables object. -/
def piiLookup (args : List (String × String)) (key : String) : Option String :=
  (args.find? (fun p => p.1 == key)).map (fun p => p.2)

/-- The replacement callback of formatPII for one matched token: keeps the
literal token when excludePII is set and the name does not start with an
underscore, otherwise substitutes the looked-up value; a missing key or an
empty value is falsy in JavaScript, so the literal token is kept in those
cases as well. -/
def tokenReplace (excludePII : Bool) (args : List (String × String)) (nm : List Char) : List Char :=
  if excludePII && decide (0 < nm.length) && !(nm.head? == some '_') then
    '{' :: (nm ++ ['}'])
  else
    match piiLookup args (String.mk nm) with
    | some v => if v = "" then '{' :: (nm ++ ['}']) else v.data
    | none => '{' :: (nm ++ ['}'])

/-- Fuel-indexed left-to-right global replacement of the formatter pattern; the
fuel is set to one more than the length of the template, which the scan never
exhausts because every step consumes at least one character. -/
def formatPIIAux (excludePII : Bool) (args : List (String × String)) : Nat → List Char → List Char
  | 0, l => l
  | _ + 1, [] => []
  | fuel + 1, c :: cs =>
    if c = '{' then
      match scanName cs with
      | some (nm, rest) =>
        if nm.isEmpty then c :: formatPIIAux excludePII args fuel cs
        else tokenReplace excludePII args nm ++ formatPIIAux excludePII args fuel rest
      | none => c :: formatPIIAux excludePII args fuel cs
    else c :: formatPIIAux excludePII args fuel cs

/-- formatPII from debugSession.ts: global replacement of brace tokens in the
template, excluding from substitution (when excludePII is set) every name that
does not start with an underscore. -/
def formatPII (format : String) (excludePII : Bool) (args : List (String × String)) : String :=
  String.mk (formatPIIAux excludePII args (format.data.length + 1) format.data)

/-- The Message shape of the protocol: id, template, variables and the two
destination flags; an absent optional field is modelled as none. -/
structure ErrorMessage where
  id : Int
  format : String
  vars : Option (List (String × String)) := none
  showUser : Option Bool := none
  sendTelemetry : Option Bool := none
deriving DecidableEq

/-- The body of a response: the error slot written by sendErrorResponse and the
capability fields written by the default handler of the initial handshake
request; fields that were never assigned are none. -/
structure ResponseBody where
  error : Option ErrorMessage := none
  supportsConditionalBreakpoints : Option Bool := none
  supportsFunctionBreakpoints : Option Bool := none
  supportsConfigurationDoneRequest : Option Bool := none
  supportsEvaluateForHovers : Option Bool := none
  supportsStepBack : Option Bool := none
  supportsSetVariable : Option Bool := none
deriving DecidableEq

/-- The Response shape of the protocol. -/
structure Response where
  request_seq : Int
  success : Bool
  command : String
  message : Option String := none
  body : Option ResponseBody := none
deriving DecidableEq

/-- Arguments of the handshake request; a field whose value is absent or not of
the expected type is modelled as none, matching the typeof checks of the
dispatcher. -/
structure InitializeRequestArguments where
  linesStartAt1 : Option Bool := none
  columnsStartAt1 : Option Bool := none
  pathFormat : Option String := none
deriving DecidableEq

/-- The arguments slot of a request: either an object carrying the handshake
fields or an opaque object without them. -/
inductive RequestArguments where
  | initArgs (a : InitializeRequestArguments)
  | otherArgs
deriving DecidableEq

/-- The Request shape of the protocol. -/
structure Request where
  seq : Int
  command : String
  arguments : RequestArguments
deriving DecidableEq

/-- Viewing an arbitrary arguments object through the handshake-argument
fields: an object without those fields yields none for each of them. -/
def RequestArguments.toInitArgs : RequestArguments → InitializeRequestArguments
  | .initArgs a => a
  | .otherArgs => {}

/-- Modelled from the spec: the dispatcher constructs a Response shell
correlated to the incoming Request, copying its sequence number and command,
with success defaulted to true (the Response class lives in the messages
module, outside debugSession.ts). -/
def Response.ofRequest (request : Request) : Response :=
  { request_seq := request.seq, success := true, command := request.command }

/-- The session state: the six numbering/path convention flags and the server
flag from debugSession.ts, plus the record of responses handed to the
transport. The sentResponses field is modelled from the spec: the transport
collaborator accepts Response objects for serialization and transmission, here
modelled by appending to this list; exitScheduled models the delayed process
exit requested by shutdown in stdio mode. -/
structure DebugSession where
  debuggerLinesStartAt1 : Bool
  debuggerColumnsStartAt1 : Bool
  debuggerPathsAreURIs : Bool
  clientLinesStartAt1 : Bool
  clientColumnsStartAt1 : Bool
  clientPathsAreURIs : Bool
  isServer : Bool
  exitScheduled : Bool
  sentResponses : List Response
deriving DecidableEq

/-- The constructor of DebugSession: both obsolete parameters default to false
when not supplied as booleans; client conventions start out 1-based with
native paths. -/
def DebugSession.create (obsoleteDebuggerLinesAndColumnsStartAt1 : Option Bool) (obsoleteIsServer : Option Bool) : DebugSession :=
  let l := obsoleteDebuggerLinesAndColumnsStartAt1.getD false
  { debuggerLinesStartAt1 := l
    debuggerColumnsStartAt1 := l
    debuggerPathsAreURIs := false
    clientLinesStartAt1 := true
    clientColumnsStartAt1 := true
    clientPathsAreURIs := false
    isServer := obsoleteIsServer.getD false
    exitScheduled := false
    sentResponses := [] }

def DebugSession.setDebuggerPathFormat (s : DebugSession) (format : String) : DebugSession :=
  { s with debuggerPathsAreURIs := format ≠ "path" }

def DebugSession.setDebuggerLinesStartAt1 (s : DebugSession) (enable : Bool) : DebugSession :=
  { s with debuggerLinesStartAt1 := enable }

def DebugSession.setDebuggerColumnsStartAt1 (s : DebugSession) (enable : Bool) : DebugSession :=
  { s with debuggerColumnsStartAt1 := enable }

def DebugSession.setRunAsServer (s : DebugSession) (enable : Bool) : DebugSession :=
  { s with isServer := enable }

/-- shutdown: in server mode nothing happens to the process; in stdio mode a
delayed process exit is scheduled, modelled by the exitScheduled flag. -/
def DebugSession.shutdown (s : DebugSession) : DebugSession :=
  if s.isServer then s else { s with exitScheduled := true }

/-- Modelled from the spec: the send primitive of the protocol server (outside
debugSession.ts) hands the response to the transport for serialization and
transmission, modelled by appending it to the list of sent responses. -/
def DebugSession.sendResponse (s : DebugSession) (response : Response) : DebugSession :=
  { s with sentResponses := s.sentResponses ++ [response] }

/-- The two members of the error-destination enumeration, used as a bitmask. -/
def ErrorDestination.User : Nat := 1

def ErrorDestination.Telemetry : Nat := 2

/-- The first argument of sendErrorResponse: either a numeric error code or a
pre-built message. -/
inductive CodeOrMessage where
  | code (n : Int)
  | msg (m : ErrorMessage)
deriving DecidableEq

/-- The error-message construction branch of sendErrorResponse: a numeric code
is packaged together with the template and variables, the destination bitmask
deciding the showUser and sendTelemetry flags; a pre-built message is used
verbatim. -/
def buildErrorMessage (codeOrMessage : CodeOrMessage) (format : String) (vars : Option (List (String × String))) (dest : Nat) : ErrorMessage :=
  match codeOrMessage with
  | .code n =>
    let m0 : ErrorMessage := { id := n, format := format }
    let m1 := match vars with
      | some v => { m0 with vars := some v }
      | none => m0
    let m2 := if Nat.land dest ErrorDestination.User ≠ 0 then { m1 with showUser := some true } else m1
    if Nat.land dest ErrorDestination.Telemetry ≠ 0 then { m2 with sendTelemetry := some true } else m2
  | .msg m => m

/-- sendErrorResponse from debugSession.ts: builds or adopts the error message,
marks the response failed, renders the message template through the formatter
with the telemetry-exclusion flag set, stores the full message in the error
slot of the body, and delegates transmission to the send primitive. -/
def DebugSession.sendErrorResponse (s : DebugSession) (response : Response) (codeOrMessage : CodeOrMessage) (format : String) (vars : Option (List (String × String))) (dest : Nat) : DebugSession :=
  let m := buildErrorMessage codeOrMessage format vars dest
  let response1 := { response with
    success := false
    message := some (formatPII m.format true (m.vars.getD [])) }
  let body := response1.body.getD {}
  let response2 := { response1 with body := some { body with error := some m } }
  s.sendResponse response2

/-- The outcome of one handler invocation: the session as left by the handler,
the response object as left by the handler (the dispatcher and the handler
share it by reference in the source), and the synchronously thrown exception,
if any. -/
structure Exc where
  message : String
  stack : String
deriving DecidableEq

structure HandlerResult where
  session : DebugSession
  response : Response
  thrown : Option Exc

/-- The type of an overridable request handler. -/
abbrev Handler := DebugSession → Response → RequestArguments → HandlerResult

/-- The overridable handler suite of the session; a concrete adapter overrides
individual members, mirroring method overriding in the source. -/
structure Handlers where
  initializeRequest : DebugSession → Response → InitializeRequestArguments → HandlerResult
  launchRequest : Handler
  attachRequest : Handler
  disconnectRequest : Handler
  setBreakPointsRequest : Handler
  setFunctionBreakPointsRequest : Handler
  setExceptionBreakPointsRequest : Handler
  configurationDoneRequest : Handler
  continueRequest : Handler
  nextRequest : Handler
  stepInRequest : Handler
  stepOutRequest : Handler
  stepBackRequest : Handler
  pauseRequest : Handler
  stackTraceRequest : Handler
  scopesRequest : Handler
  variablesRequest : Handler
  setVariableRequest : Handler
  sourceRequest : Handler
  threadsRequest : DebugSession → Response → HandlerResult
  evaluateRequest : Handler
  customRequest : String → DebugSession → Response → RequestArguments → HandlerResult

/-- The default behavior of almost every handler: immediately send the bare
success response. -/
def defaultSendOnly : Handler :=
  fun s response _ => { session := s.sendResponse response, response := response, thrown := none }

/-- The default handshake handler: fills the fixed capability advertisement
into the body prepared by the dispatcher and sends the response. -/
def defaultInitializeRequest (s : DebugSession) (response : Response) (_args : InitializeRequestArguments) : HandlerResult :=
  let b := response.body.getD {}
  let response1 := { response with body := some { b with
    supportsConditionalBreakpoints := some false
    supportsFunctionBreakpoints := some false
    supportsConfigurationDoneRequest := some true
    supportsEvaluateForHovers := some false
    supportsStepBack := some false
    supportsSetVariable := some false } }
  { session := s.sendResponse response1, response := response1, thrown := none }

/-- The default disconnect handler: send the response, then shut the session
down. -/
def defaultDisconnectRequest : Handler :=
  fun s response _ =>
    { session := (s.sendResponse response).shutdown, response := response, thrown := none }

/-- The default custom-request handler: a telemetry-flagged unrecognized
request error. -/
def defaultCustomRequest (_command : String) (s : DebugSession) (response : Response) (_args : RequestArguments) : HandlerResult :=
  { session := s.sendErrorResponse response (.code 1014) "unrecognized request" none ErrorDestination.Telemetry
    response := response
    thrown := none }

/-- The full default handler suite of debugSession.ts. -/
def defaultHandlers : Handlers :=
  { initializeRequest := defaultInitializeRequest
    launchRequest := defaultSendOnly
    attachRequest := defaultSendOnly
    disconnectRequest := defaultDisconnectRequest
    setBreakPointsRequest := defaultSendOnly
    setFunctionBreakPointsRequest := defaultSendOnly
    setExceptionBreakPointsRequest := defaultSendOnly
    configurationDoneRequest := defaultSendOnly
    continueRequest := defaultSendOnly
    nextRequest := defaultSendOnly
    stepInRequest := defaultSendOnly
    stepOutRequest := defaultSendOnly
    stepBackRequest := defaultSendOnly
    pauseRequest := defaultSendOnly
    stackTraceRequest := defaultSendOnly
    scopesRequest := defaultSendOnly
    variablesRequest := defaultSendOnly
    setVariableRequest := defaultSendOnly
    sourceRequest := defaultSendOnly
    threadsRequest := fun s response => { session := s.sendResponse response, response := response, thrown := none }
    evaluateRequest := defaultSendOnly
    customRequest := defaultCustomRequest }

/-- The client-convention updates at the start of the handshake case of the
dispatcher: each flag is copied from the arguments only when present there. -/
def updateClientConventions (s : DebugSession) (args : InitializeRequestArguments) : DebugSession :=
  let s1 := match args.linesStartAt1 with
    | some b => { s with clientLinesStartAt1 := b }
    | none => s
  match args.columnsStartAt1 with
  | some b => { s1 with clientColumnsStartAt1 := b }
  | none => s1

/-- The body of the try block of dispatchRequest: the handshake special case
(client convention updates, then the path-format validation), the routing of
every other recognized command to its handler, and the custom-request
fallback. -/
def routeRequest (s : DebugSession) (h : Handlers) (request : Request) (response : Response) : HandlerResult :=
    if request.command = "initialize" then
      let args := request.arguments.toInitArgs
      let s2 := updateClientConventions s args
      if args.pathFormat ≠ some "path" then
        { session := s2.sendErrorResponse response (.code 2018) "debug adapter only supports native paths" none ErrorDestination.Telemetry
          response := response
          thrown := none }
      else
        h.initializeRequest s2 { response with body := some {} } args
    else if request.command = "launch" then h.launchRequest s response request.arguments
    else if request.command = "attach" then h.attachRequest s response request.arguments
    else if request.command = "disconnect" then h.disconnectRequest s response request.arguments
    else if request.command = "setBreakpoints" then h.setBreakPointsRequest s response request.arguments
    else if request.command = "setFunctionBreakpoints" then h.setFunctionBreakPointsRequest s response request.arguments
    else if request.command = "setExceptionBreakpoints" then h.setExceptionBreakPointsRequest s response request.arguments
    else if request.command = "configurationDone" then h.configurationDoneRequest s response request.arguments
    else if request.command = "continue" then h.continueRequest s response request.arguments
    else if request.command = "next" then h.nextRequest s response request.arguments
    else if request.command = "stepIn" then h.stepInRequest s response request.arguments
    else if request.command = "stepOut" then h.stepOutRequest s response request.arguments
    else if request.command = "stepBack" then h.stepBackRequest s response request.arguments
    else if request.command = "pause" then h.pauseRequest s response request.arguments
    else if request.command = "stackTrace" then h.stackTraceRequest s response request.arguments
    else if request.command = "scopes" then h.scopesRequest s response request.arguments
    else if request.command = "variables" then h.variablesRequest s response request.arguments
    else if request.command = "setVariable" then h.setVariableRequest s response request.arguments
    else if request.command = "source" then h.sourceRequest s response request.arguments
    else if request.command = "threads" then h.threadsRequest s response
    else if request.command = "evaluate" then h.evaluateRequest s response request.arguments
    else h.customRequest request.command s response request.arguments

/-- dispatchRequest from debugSession.ts: builds the response shell, runs the
try block, and converts a synchronously thrown exception into the generic
internal-error response carrying the exception message and stack trace as
underscore-prefixed variables. -/
def DebugSession.dispatchRequest (s : DebugSession) (h : Handlers) (request : Request) : DebugSession :=
  let response := Response.ofRequest request
  let result := routeRequest s h request response
  match result.thrown with
  | none => result.session
  | some e =>
    result.session.sendErrorResponse result.response (.code 1104) "{_stack}" (some [("_exception", e.message), ("_stack", e.stack)]) ErrorDestination.Telemetry

/-- The closed set of recognized command names, in dispatch order. -/
def recognizedCommands : List String :=
  ["initialize", "launch", "attach", "disconnect", "setBreakpoints",
   "setFunctionBreakpoints", "setExceptionBreakpoints", "configurationDone",
   "continue", "next", "stepIn", "stepOut", "stepBack", "pause", "stackTrace",
   "scopes", "variables", "setVariable", "source", "threads", "evaluate"]

/-- A minimally valid arguments object for a recognized command: the handshake
request needs the supported path format, every other command needs nothing. -/
def minimalArguments (command : String) : RequestArguments :=
  if command = "initialize" then .initArgs { pathFormat := some "path" } else .otherArgs

def minimalRequest (command : String) (n : Int) : Request :=
  { seq := n, command := command, arguments := minimalArguments command }

/-- A session as constructed with no constructor arguments. -/
def freshSession : DebugSession := DebugSession.create none none

/-- convertClientLineToDebugger from debugSession.ts. -/
def DebugSession.convertClientLineToDebugger (s : DebugSession) (line : Int) : Int :=
  if s.debuggerLinesStartAt1 then
    if s.clientLinesStartAt1 then line else line + 1
  else
    if s.clientLinesStartAt1 then line - 1 else line

/-- convertDebuggerLineToClient from debugSession.ts. -/
def DebugSession.convertDebuggerLineToClient (s : DebugSession) (line : Int) : Int :=
  if s.debuggerLinesStartAt1 then
    if s.clientLinesStartAt1 then line else line - 1
  else
    if s.clientLinesStartAt1 then line + 1 else line

/-- convertClientColumnToDebugger from debugSession.ts. -/
def DebugSession.convertClientColumnToDebugger (s : DebugSession) (column : Int) : Int :=
  if s.debuggerColumnsStartAt1 then
    if s.clientColumnsStartAt1 then column else column + 1
  else
    if s.clientColumnsStartAt1 then column - 1 else column

/-- convertDebuggerColumnToClient from debugSession.ts. -/
def DebugSession.convertDebuggerColumnToClient (s : DebugSession) (column : Int) : Int :=
  if s.debuggerColumnsStartAt1 then
    if s.clientColumnsStartAt1 then column else column - 1
  else
    if s.clientColumnsStartAt1 then column + 1 else column

/-- The character set the ECMAScript encodeURI builtin leaves unescaped, by
code point: ASCII letters and digits, the marks minus underscore dot
exclamation tilde asterisk apostrophe and parentheses, the reserved characters
semicolon slash question colon at ampersand equals plus dollar comma, and the
number sign. -/
def encodeURIUnescaped (c : Char) : Bool :=
  let n := c.toNat
  (65 ≤ n && n ≤ 90) || (97 ≤ n && n ≤ 122) || (48 ≤ n && n ≤ 57) ||
  n == 45 || n == 95 || n == 46 || n == 33 || n == 126 || n == 42 || n == 39 || n == 40 || n == 41 ||
  n == 59 || n == 47 || n == 63 || n == 58 || n == 64 || n == 38 || n == 61 || n == 43 || n == 36 || n == 44 || n == 35

def hexDigit (n : Nat) : Char :=
  if n < 10 then Char.ofNat (48 + n) else Char.ofNat (55 + n)

def percentEncodeByte (b : Nat) : List Char :=
  ['%', hexDigit (b / 16), hexDigit (b % 16)]

/-- The UTF-8 bytes of one code point. -/
def utf8Bytes (c : Char) : List Nat :=
  let n := c.toNat
  if n < 128 then [n]
  else if n < 2048 then [192 + n / 64, 128 + n % 64]
  else if n < 65536 then [224 + n / 4096, 128 + (n / 64) % 64, 128 + n % 64]
  else [240 + n / 262144, 128 + (n / 4096) % 64, 128 + (n / 64) % 64, 128 + n % 64]

/-- The ECMAScript encodeURI builtin, modelled from its documented behavior:
unescaped characters pass through, every other character is percent-encoded
per UTF-8 byte. -/
def encodeURI (str : String) : String :=
  String.mk (List.flatten (str.data.map (fun c =>
    if encodeURIUnescaped c then [c] else List.flatten ((utf8Bytes c).map percentEncodeByte))))

/-- path2uri from debugSession.ts: replace backslashes by slashes, prefix a
slash when the path is not rooted, then URI-encode the file scheme prefix plus
the path. -/
def path2uri (str : String) : String :=
  let pathName := String.mk (str.data.map (fun c => if c = '\\' then '/' else c))
  let pathName := if pathName.data.head? ≠ some '/' then "/" ++ pathName else pathName
  encodeURI ("file://" ++ pathName)

/-- Skip the scheme of a URL: everything up to and including the first colon. -/
def dropThroughColon : List Char → Option (List Char)
  | [] => none
  | c :: cs => if c = ':' then some cs else dropThroughColon cs

/-- Modelled from the documented behavior of the Node url module used by
uri2path: for a scheme://authority/path URL the pathname is the substring from
the slash after the authority up to a question mark or number sign, without
any percent-decoding; a URL without the double slash takes everything after
the scheme colon up to a question mark or number sign; an empty pathname is
null. -/
def uriPathname (url : List Char) : Option (List Char) :=
  match dropThroughColon url with
  | none => none
  | some rest =>
    match rest with
    | '/' :: '/' :: rest2 =>
      let afterAuthority := rest2.dropWhile (fun c => !(c == '/' || c == '?' || c == '#'))
      let p := afterAuthority.takeWhile (fun c => !(c == '?' || c == '#'))
      if p.isEmpty then none else some p
    | other =>
      let p := other.takeWhile (fun c => !(c == '?' || c == '#'))
      if p.isEmpty then none else some p

/-- uri2path from debugSession.ts: the pathname component of the parsed URL. -/
def uri2path (url : String) : Option String :=
  (uriPathname url.data).map String.mk

/-- Characters whose round trip through the URI encoding is trivial: ASCII
letters and digits, slash, hyphen, underscore, dot and tilde. Such characters
need no percent-encoding, and none of them is a backslash, a colon, a question
mark or a number sign, so they survive URL parsing unchanged. -/
def pathSafeChar (c : Char) : Bool :=
  let n := c.toNat
  (65 ≤ n && n ≤ 90) || (97 ≤ n && n ≤ 122) || (48 ≤ n && n ≤ 57) ||
  n == 47 || n == 45 || n == 95 || n == 46 || n == 126

/-- sendErrorResponse as called with the destination parameter omitted: the
declaration of sendErrorResponse defaults that parameter to the User member of
the destination enumeration. -/
def DebugSession.sendErrorResponseDefault (s : DebugSession) (response : Response) (codeOrMessage : CodeOrMessage) (format : String) (vars : Option (List (String × String))) : DebugSession :=
  s.sendErrorResponse response codeOrMessage format vars ErrorDestination.User

/-- The default handler suite with the launch handler overridden by one that
throws the given exception synchronously, before sending anything. -/
def throwingHandlers (e : Exc) : Handlers :=
  { defaultHandlers with
    launchRequest := fun s response _ => { session := s, response := response, thrown := some e } }

/-- convertClientPathToDebugger from debugSession.ts. -/
def DebugSession.convertClientPathToDebugger (s : DebugSession) (clientPath : String) : Option String :=
  if s.clientPathsAreURIs ≠ s.debuggerPathsAreURIs then
    if s.clientPathsAreURIs then uri2path clientPath else some (path2uri clientPath)
  else some clientPath

/-- convertDebuggerPathToClient from debugSession.ts. -/
def DebugSession.convertDebuggerPathToClient (s : DebugSession) (debuggerPath : String) : Option String :=
  if s.debuggerPathsAreURIs ≠ s.clientPathsAreURIs then
    if s.debuggerPathsAreURIs then uri2path debuggerPath else some (path2uri debuggerPath)
  else some debuggerPath

lemma scanName_append : ∀ (l r : List Char), (∀ c ∈ l, c ≠ '}') → scanName (l ++ '}' :: r) = some (l, r) := by
  intro l
  induction l with
  | nil => intro r _; simp [scanName]
  | cons c cs ih =>
    intro r h
    have hc : c ≠ '}' := h c (by simp)
    simp [scanName, hc, ih r (fun x hx => h x (by simp [hx]))]

lemma scanName_none : ∀ l : List Char, (∀ c ∈ l, c ≠ '}') → scanName l = none := by
  intro l
  induction l with
  | nil => simp [scanName]
  | cons c cs ih =>
    intro h
    have hc : c ≠ '}' := h c (by simp)
    simp [scanName, hc, ih (fun x hx => h x (by simp [hx]))]

lemma formatPIIAux_nil (excl : Bool) (args : List (String × String)) (fuel : Nat) :
    formatPIIAux excl args fuel [] = [] := by
  cases fuel <;> rfl

lemma formatPIIAux_token (excl : Bool) (args : List (String × String)) (fuel : Nat)
    (nm : List Char) (h1 : nm ≠ []) (h2 : ∀ c ∈ nm, c ≠ '}') :
    formatPIIAux excl args (fuel + 1) ('{' :: (nm ++ ['}'])) = tokenReplace excl args nm := by
  have hscan : scanName (nm ++ ['}']) = some (nm, []) := scanName_append nm [] h2
  simp [formatPIIAux, hscan, h1, formatPIIAux_nil]

lemma formatPII_token (excl : Bool) (args : List (String × String)) (l : List Char)
    (h1 : l ≠ []) (h2 : ∀ c ∈ l, c ≠ '}') :
    formatPII ("\x7b" ++ String.mk l ++ "\x7d") excl args = String.mk (tokenReplace excl args l) := by
  have hd : ("\x7b" ++ String.mk l ++ "\x7d") = String.mk ('{' :: (l ++ ['}'])) := by
    simp [String.ext_iff]
  rw [hd]
  show String.mk (formatPIIAux excl args (('{' :: (l ++ ['}'])).length + 1) ('{' :: (l ++ ['}']))) = _
  have hl : ('{' :: (l ++ ['}'])).length + 1 = (l.length + 2) + 1 := by
    simp [List.length_append]
  rw [hl, formatPIIAux_token excl args (l.length + 2) l h1 h2]

lemma formatPIIAux_no_rbrace (excl : Bool) (args : List (String × String)) :
    ∀ (fuel : Nat) (l : List Char), (∀ c ∈ l, c ≠ '}') → formatPIIAux excl args fuel l = l := by
  intro fuel
  induction fuel with
  | zero => intro l _; rfl
  | succ n ih =>
    intro l h
    cases l with
    | nil => rfl
    | cons c cs =>
      have hcs : ∀ x ∈ cs, x ≠ '}' := fun x hx => h x (by simp [hx])
      by_cases hc : c = '{'
      · simp [formatPIIAux, hc, scanName_none cs hcs, ih cs hcs]
      · simp [formatPIIAux, hc, ih cs hcs]

lemma formatPII_no_rbrace (f : String) (excl : Bool) (args : List (String × String))
    (h : ∀ c ∈ f.data, c ≠ '}') : formatPII f excl args = f := by
  obtain ⟨l⟩ := f
  show String.mk (formatPIIAux excl args (l.length + 1) l) = String.mk l
  rw [formatPIIAux_no_rbrace excl args (l.length + 1) l h]

lemma sendResponse_sent (s : DebugSession) (r : Response) :
    (s.sendResponse r).sentResponses = s.sentResponses ++ [r] := rfl

lemma sendErrorResponse_sent (s : DebugSession) (resp : Response) (com : CodeOrMessage)
    (fmt : String) (vs : Option (List (String × String))) (dest : Nat) :
    (s.sendErrorResponse resp com fmt vs dest).sentResponses =
      s.sentResponses ++
        [{ resp with
            success := false
            message := some (formatPII (buildErrorMessage com fmt vs dest).format true
              ((buildErrorMessage com fmt vs dest).vars.getD []))
            body := some { (resp.body.getD {}) with error := some (buildErrorMessage com fmt vs dest) } }] := rfl

lemma shutdown_sent (s : DebugSession) : (DebugSession.shutdown s).sentResponses = s.sentResponses := by
  unfold DebugSession.shutdown
  split <;> rfl

lemma updateClientConventions_sent (s : DebugSession) (a : InitializeRequestArguments) :
    (updateClientConventions s a).sentResponses = s.sentResponses := by
  unfold updateClientConventions
  rcases a with ⟨l, c, p⟩
  rcases l with _ | b1 <;> rcases c with _ | b2 <;> rfl

lemma updateClientConventions_lines (s : DebugSession) (a : InitializeRequestArguments) :
    (updateClientConventions s a).clientLinesStartAt1 = a.linesStartAt1.getD s.clientLinesStartAt1 := by
  unfold updateClientConventions
  rcases a with ⟨l, c, p⟩
  rcases l with _ | b1 <;> rcases c with _ | b2 <;> rfl

lemma updateClientConventions_columns (s : DebugSession) (a : InitializeRequestArguments) :
    (updateClientConventions s a).clientColumnsStartAt1 = a.columnsStartAt1.getD s.clientColumnsStartAt1 := by
  unfold updateClientConventions
  rcases a with ⟨l, c, p⟩
  rcases l with _ | b1 <;> rcases c with _ | b2 <;> rfl

lemma route_default (s : DebugSession) (req : Request) (resp : Response) :
    (routeRequest s defaultHandlers req resp).thrown = none ∧
    (routeRequest s defaultHandlers req resp).session.sentResponses.length =
      s.sentResponses.length + 1 := by
  constructor
  · unfold routeRequest
    simp [apply_ite HandlerResult.thrown, defaultHandlers, defaultSendOnly,
      defaultInitializeRequest, defaultDisconnectRequest, defaultCustomRequest]
  · unfold routeRequest
    simp [apply_ite HandlerResult.session, apply_ite DebugSession.sentResponses,
      apply_ite List.length, defaultHandlers, defaultSendOnly, defaultInitializeRequest,
      defaultDisconnectRequest, defaultCustomRequest, sendResponse_sent, sendErrorResponse_sent,
      shutdown_sent, updateClientConventions_sent]

lemma dispatch_default_one_send (s : DebugSession) (req : Request) :
    (s.dispatchRequest defaultHandlers req).sentResponses.length = s.sentResponses.length + 1 := by
  have h := route_default s req (Response.ofRequest req)
  unfold DebugSession.dispatchRequest
  dsimp only
  rw [h.1]
  exact h.2

/-- C3 (amended): formatPII substitutes a brace token exactly when the key is
present in the mapping with a non-empty value and (redaction is off or the
name starts with an underscore); otherwise the literal token is kept. The
three concrete examples of the claim hold, and a template without any closing
brace passes through unchanged, so in particular an unmatched opening brace
never matches and nothing throws. -/
theorem C3_amended :
    (∀ (nm v : String) (redact : Bool) (args : List (String × String)),
      nm.data ≠ [] → (∀ c ∈ nm.data, c ≠ '}') →
      piiLookup args nm = some v → v ≠ "" →
      (redact = false ∨ nm.data.head? = some '_') →
      formatPII ("\x7b" ++ nm ++ "\x7d") redact args = v) ∧
    (∀ (nm : String) (redact : Bool) (args : List (String × String)),
      nm.data ≠ [] → (∀ c ∈ nm.data, c ≠ '}') →
      (piiLookup args nm = none ∨ piiLookup args nm = some "" ∨
        (redact = true ∧ nm.data.head? ≠ some '_')) →
      formatPII ("\x7b" ++ nm ++ "\x7d") redact args = "\x7b" ++ nm ++ "\x7d") ∧
    formatPII "{_stack}" true [("_stack", "trace"), ("user", "bob")] = "trace" ∧
    formatPII "{user}" true [("user", "bob")] = "{user}" ∧
    formatPII "{user}" false [("user", "bob")] = "bob" ∧
    (∀ (f : String) (redact : Bool) (args : List (String × String)),
      (∀ c ∈ f.data, c ≠ '}') → formatPII f redact args = f) := by
  refine ⟨?_, ?_, by decide, by decide, by decide, ?_⟩
  · intro nm v redact args
    obtain ⟨l⟩ := nm
    obtain ⟨lv⟩ := v
    intro h1 h2 hlook hv hred
    rw [formatPII_token redact args l h1 h2]
    have hcond : (redact && decide (0 < l.length) && !(l.head? == some '_')) = false := by
      rcases hred with h | h
      · subst h; simp
      · simp [h]
    simp [tokenReplace, hcond, hlook, hv]
  · intro nm redact args
    obtain ⟨l⟩ := nm
    intro h1 h2 hcases
    rw [formatPII_token redact args l h1 h2]
    have htok : String.mk ('{' :: (l ++ ['}'])) = "\x7b" ++ String.mk l ++ "\x7d" := by
      simp [String.ext_iff]
    rcases hcases with h | h | h
    · by_cases hc : (redact && decide (0 < l.length) && !(l.head? == some '_')) = true
      · simp [tokenReplace, hc, htok]
      · simp only [Bool.not_eq_true] at hc
        simp [tokenReplace, hc, h, htok]
    · by_cases hc : (redact && decide (0 < l.length) && !(l.head? == some '_')) = true
      · simp [tokenReplace, hc, htok]
      · simp only [Bool.not_eq_true] at hc
        simp [tokenReplace, hc, h, htok]
    · have hc : (redact && decide (0 < l.length) && !(l.head? == some '_')) = true := by
        have h0 : 0 < l.length := List.length_pos.mpr h1
        simp [h.1, h0, h.2]
      simp [tokenReplace, hc, htok]
  · exact fun f redact args h => formatPII_no_rbrace f redact args h

/-- C3 counterexample: with redaction off and the key present but mapped to the
empty string, the claim as stated demands substitution of the empty value, yet
formatPII keeps the literal token, because the empty string is falsy in the
replacement callback. -/
theorem C3_counterexample :
    formatPII "{user}" false [("user", "")] = "{user}" ∧
    formatPII "{user}" false [("user", "")] ≠ "" := by decide

/-- Witness for C3 at a concrete input. -/
theorem C3_witness : formatPII ("\x7b" ++ "alpha" ++ "\x7d") false [("alpha", "beta")] = "beta" :=
  C3_amended.1 "alpha" "beta" false [("alpha", "beta")] (by decide) (by decide) (by decide)
    (by decide) (Or.inl rfl)

/-- C7: for every integer and every combination of the convention flags held
fixed, the client/debugger line and column converters are mutually inverse;
the conversion is the identity when the two sides agree on base and is an
exact plus or minus one, with no clamping, when they disagree. -/
theorem C7_thm : ∀ (s : DebugSession) (n : Int),
    s.convertClientLineToDebugger (s.convertDebuggerLineToClient n) = n ∧
    s.convertDebuggerLineToClient (s.convertClientLineToDebugger n) = n ∧
    s.convertClientColumnToDebugger (s.convertDebuggerColumnToClient n) = n ∧
    s.convertDebuggerColumnToClient (s.convertClientColumnToDebugger n) = n ∧
    s.convertClientLineToDebugger n =
      (if s.debuggerLinesStartAt1 = s.clientLinesStartAt1 then n
       else if s.debuggerLinesStartAt1 then n + 1 else n - 1) ∧
    s.convertDebuggerLineToClient n =
      (if s.debuggerLinesStartAt1 = s.clientLinesStartAt1 then n
       else if s.debuggerLinesStartAt1 then n - 1 else n + 1) ∧
    s.convertClientColumnToDebugger n =
      (if s.debuggerColumnsStartAt1 = s.clientColumnsStartAt1 then n
       else if s.debuggerColumnsStartAt1 then n + 1 else n - 1) ∧
    s.convertDebuggerColumnToClient n =
      (if s.debuggerColumnsStartAt1 = s.clientColumnsStartAt1 then n
       else if s.debuggerColumnsStartAt1 then n - 1 else n + 1) := by
  intro s n
  obtain ⟨dl, dc, du, cl, cc, cu, sv, ex, sent⟩ := s
  cases dl <;> cases cl <;> cases dc <;> cases cc <;>
    simp [DebugSession.convertClientLineToDebugger, DebugSession.convertDebuggerLineToClient,
      DebugSession.convertClientColumnToDebugger, DebugSession.convertDebuggerColumnToClient]

/-- C9: after a handshake request with the supported path format and a false
linesStartAt1 flag, the client-line convention becomes 0-based while the
absent columnsStartAt1 flag leaves the prior 1-based default in force, and on
a session with 1-based debugger lines the debugger line 5 translates to client
line 4. -/
theorem C9_thm :
    ((freshSession.setDebuggerLinesStartAt1 true).dispatchRequest defaultHandlers
        { seq := 1, command := "initialize",
          arguments := .initArgs { linesStartAt1 := some false, pathFormat := some "path" } }).clientLinesStartAt1 = false ∧
    ((freshSession.setDebuggerLinesStartAt1 true).dispatchRequest defaultHandlers
        { seq := 1, command := "initialize",
          arguments := .initArgs { linesStartAt1 := some false, pathFormat := some "path" } }).clientColumnsStartAt1 = true ∧
    ((freshSession.setDebuggerLinesStartAt1 true).dispatchRequest defaultHandlers
        { seq := 1, command := "initialize",
          arguments := .initArgs { linesStartAt1 := some false, pathFormat := some "path" } }).convertDebuggerLineToClient 5 = 4 := by
  decide

/-- C4: dispatching a minimally valid request for any of the twenty-one
recognized commands with the default handlers sends exactly one response,
successful and correlated to the request sequence number; and with the default
handlers every dispatched request, recognized or not, results in exactly one
sent response. -/
theorem C4_thm :
    (∀ (n : Int) (c : String), c ∈ recognizedCommands →
      ∃ r, (freshSession.dispatchRequest defaultHandlers (minimalRequest c n)).sentResponses = [r] ∧
        r.success = true ∧ r.request_seq = n) ∧
    (∀ (s : DebugSession) (req : Request),
      (s.dispatchRequest defaultHandlers req).sentResponses.length = s.sentResponses.length + 1) := by
  constructor
  · intro n c hc
    simp only [recognizedCommands] at hc
    fin_cases hc <;> exact ⟨_, rfl, rfl, rfl⟩
  · exact fun s req => dispatch_default_one_send s req

/-- Witness for C4 at a concrete command and sequence number. -/
theorem C4_witness :
    ∃ r, (freshSession.dispatchRequest defaultHandlers (minimalRequest "launch" 7)).sentResponses = [r] ∧
      r.success = true ∧ r.request_seq = 7 :=
  C4_thm.1 7 "launch" (by decide)

/-- C6: dispatching a command outside the recognized set with the default
custom-request handler sends exactly one response, failed, correlated to the
request sequence number, whose error has id 1014 and the telemetry flag set. -/
theorem C6_thm : ∀ (s : DebugSession) (n : Int) (c : String), c ∉ recognizedCommands →
    ∃ r, (s.dispatchRequest defaultHandlers { seq := n, command := c, arguments := .otherArgs }).sentResponses =
        s.sentResponses ++ [r] ∧
      r.success = false ∧ r.request_seq = n ∧
      ∃ m, (r.body.getD {}).error = some m ∧ m.id = 1014 ∧ m.sendTelemetry = some true := by
  intro s n c hc
  simp only [recognizedCommands, List.mem_cons, List.not_mem_nil, or_false, not_or] at hc
  obtain ⟨h1, h2, h3, h4, h5, h6, h7, h8, h9, h10, h11, h12, h13, h14, h15, h16, h17, h18,
    h19, h20, h21⟩ := hc
  have hroute : routeRequest s defaultHandlers { seq := n, command := c, arguments := .otherArgs }
      (Response.ofRequest { seq := n, command := c, arguments := .otherArgs }) =
      { session := s.sendErrorResponse
          (Response.ofRequest { seq := n, command := c, arguments := .otherArgs })
          (.code 1014) "unrecognized request" none ErrorDestination.Telemetry
        response := Response.ofRequest { seq := n, command := c, arguments := .otherArgs }
        thrown := none } := by
    unfold routeRequest
    simp [h1, h2, h3, h4, h5, h6, h7, h8, h9, h10, h11, h12, h13, h14, h15, h16, h17, h18,
      h19, h20, h21, defaultHandlers, defaultCustomRequest]
  unfold DebugSession.dispatchRequest
  dsimp only
  rw [hroute]
  exact ⟨_, rfl, rfl, rfl, _, rfl, rfl, rfl⟩

/-- Witness for C6 at a concrete unrecognized command. -/
theorem C6_witness :
    ∃ r, (freshSession.dispatchRequest defaultHandlers { seq := 9, command := "foo", arguments := .otherArgs }).sentResponses =
        freshSession.sentResponses ++ [r] ∧
      r.success = false ∧ r.request_seq = 9 ∧
      ∃ m, (r.body.getD {}).error = some m ∧ m.id = 1014 ∧ m.sendTelemetry = some true :=
  C6_thm freshSession 9 "foo" (by decide)

/-- C2 (amended): a handshake request with an unsupported path format yields,
for every handler suite, exactly one failed telemetry-only error response with
id 2018 and no capability fields in the body, without invoking any handler;
but the client-side numbering-convention flags are still updated from the
arguments, because the dispatcher performs those updates before validating the
path format. -/
theorem C2_amended : ∀ (h : Handlers) (s : DebugSession) (n : Int) (a : InitializeRequestArguments),
    a.pathFormat ≠ some "path" →
    ∃ r m, (s.dispatchRequest h { seq := n, command := "initialize", arguments := .initArgs a }).sentResponses =
        s.sentResponses ++ [r] ∧
      (s.dispatchRequest h { seq := n, command := "initialize", arguments := .initArgs a }).clientLinesStartAt1 =
        a.linesStartAt1.getD s.clientLinesStartAt1 ∧
      (s.dispatchRequest h { seq := n, command := "initialize", arguments := .initArgs a }).clientColumnsStartAt1 =
        a.columnsStartAt1.getD s.clientColumnsStartAt1 ∧
      r.success = false ∧ r.request_seq = n ∧
      r.body = some { error := some m } ∧
      m.id = 2018 ∧ m.sendTelemetry = some true ∧ m.showUser = none := by
  intro h s n a hp
  have hroute : routeRequest s h { seq := n, command := "initialize", arguments := .initArgs a }
      (Response.ofRequest { seq := n, command := "initialize", arguments := .initArgs a }) =
      { session := (updateClientConventions s a).sendErrorResponse
          (Response.ofRequest { seq := n, command := "initialize", arguments := .initArgs a })
          (.code 2018) "debug adapter only supports native paths" none ErrorDestination.Telemetry
        response := Response.ofRequest { seq := n, command := "initialize", arguments := .initArgs a }
        thrown := none } := by
    unfold routeRequest
    simp [RequestArguments.toInitArgs, hp]
  unfold DebugSession.dispatchRequest
  dsimp only
  rw [hroute]
  refine ⟨{ request_seq := n, success := false, command := "initialize"
            message := some (formatPII "debug adapter only supports native paths" true [])
            body := some { error := some (buildErrorMessage (.code 2018)
              "debug adapter only supports native paths" none ErrorDestination.Telemetry) } },
          buildErrorMessage (.code 2018) "debug adapter only supports native paths" none
            ErrorDestination.Telemetry,
          ?_, ?_, ?_, rfl, rfl, rfl, rfl, rfl, rfl⟩
  · rw [sendErrorResponse_sent, updateClientConventions_sent]
    rfl
  · exact updateClientConventions_lines s a
  · exact updateClientConventions_columns s a

/-- C2 counterexample: on a fresh session, whose client-line convention starts
out 1-based, a handshake request with path format uri and linesStartAt1 false
leaves the convention flag updated to 0-based, although the claim states the
flags are not updated on the error path. -/
theorem C2_counterexample :
    (freshSession.dispatchRequest defaultHandlers
        { seq := 1, command := "initialize",
          arguments := .initArgs { linesStartAt1 := some false, pathFormat := some "uri" } }).clientLinesStartAt1 = false ∧
    freshSession.clientLinesStartAt1 = true := by decide

/-- Witness for C2 at a concrete unsupported path format. -/
theorem C2_witness :
    ∃ r m, (freshSession.dispatchRequest defaultHandlers
        { seq := 3, command := "initialize",
          arguments := .initArgs { pathFormat := some "uri" } }).sentResponses =
        freshSession.sentResponses ++ [r] ∧
      (freshSession.dispatchRequest defaultHandlers
        { seq := 3, command := "initialize",
          arguments := .initArgs { pathFormat := some "uri" } }).clientLinesStartAt1 =
        ({ pathFormat := some "uri" } : InitializeRequestArguments).linesStartAt1.getD
          freshSession.clientLinesStartAt1 ∧
      (freshSession.dispatchRequest defaultHandlers
        { seq := 3, command := "initialize",
          arguments := .initArgs { pathFormat := some "uri" } }).clientColumnsStartAt1 =
        ({ pathFormat := some "uri" } : InitializeRequestArguments).columnsStartAt1.getD
          freshSession.clientColumnsStartAt1 ∧
      r.success = false ∧ r.request_seq = 3 ∧
      r.body = some { error := some m } ∧
      m.id = 2018 ∧ m.sendTelemetry = some true ∧ m.showUser = none :=
  C2_amended defaultHandlers freshSession 3 { pathFormat := some "uri" } (by decide)

lemma formatPII_pair_stack (em es : String) :
    formatPII "{_stack}" true [("_exception", em), ("_stack", es)] =
      if es = "" then "{_stack}" else es := by
  obtain ⟨les⟩ := es
  have heq : ("{_stack}" : String) = "\x7b" ++ String.mk ['_', 's', 't', 'a', 'c', 'k'] ++ "\x7d" := by
    decide
  rw [heq, formatPII_token true [("_exception", em), ("_stack", String.mk les)]
    ['_', 's', 't', 'a', 'c', 'k'] (by decide) (by decide)]
  rw [show tokenReplace true [("_exception", em), ("_stack", String.mk les)]
      ['_', 's', 't', 'a', 'c', 'k'] =
      (if String.mk les = "" then '{' :: (['_', 's', 't', 'a', 'c', 'k'] ++ ['}']) else les) from rfl]
  by_cases h : String.mk les = ""
  · simp only [if_pos h]
    decide
  · simp only [if_neg h]

lemma formatPII_pair_exception (em es : String) :
    formatPII "{_exception}" true [("_exception", em), ("_stack", es)] =
      if em = "" then "{_exception}" else em := by
  obtain ⟨lem⟩ := em
  have heq : ("{_exception}" : String) =
      "\x7b" ++ String.mk ['_', 'e', 'x', 'c', 'e', 'p', 't', 'i', 'o', 'n'] ++ "\x7d" := by
    decide
  rw [heq, formatPII_token true [("_exception", String.mk lem), ("_stack", es)]
    ['_', 'e', 'x', 'c', 'e', 'p', 't', 'i', 'o', 'n'] (by decide) (by decide)]
  rw [show tokenReplace true [("_exception", String.mk lem), ("_stack", es)]
      ['_', 'e', 'x', 'c', 'e', 'p', 't', 'i', 'o', 'n'] =
      (if String.mk lem = "" then '{' :: (['_', 'e', 'x', 'c', 'e', 'p', 't', 'i', 'o', 'n'] ++ ['}']) else lem) from rfl]
  by_cases h : String.mk lem = ""
  · simp only [if_pos h]
    decide
  · simp only [if_neg h]

/-- C5: when the launch handler throws synchronously, the dispatcher returns
normally and sends exactly one failed response, correlated to the request,
with error id 1104 and the telemetry flag, whose variables carry the exception
message and stack trace; both variables survive rendering with redaction
enabled, the non-empty values being substituted rather than redacted, and the
response message is the redacting rendering of the stack template. -/
theorem C5_thm : ∀ (e : Exc) (s : DebugSession) (n : Int),
    ∃ r, (s.dispatchRequest (throwingHandlers e) { seq := n, command := "launch", arguments := .otherArgs }).sentResponses =
        s.sentResponses ++ [r] ∧
      r.success = false ∧ r.request_seq = n ∧
      r.message = some (if e.stack = "" then "{_stack}" else e.stack) ∧
      ∃ m, (r.body.getD {}).error = some m ∧ m.id = 1104 ∧ m.sendTelemetry = some true ∧
        m.vars = some [("_exception", e.message), ("_stack", e.stack)] ∧
        formatPII "{_exception}" true [("_exception", e.message), ("_stack", e.stack)] =
          (if e.message = "" then "{_exception}" else e.message) ∧
        formatPII "{_stack}" true [("_exception", e.message), ("_stack", e.stack)] =
          (if e.stack = "" then "{_stack}" else e.stack) := by
  intro e s n
  have hroute : routeRequest s (throwingHandlers e)
      { seq := n, command := "launch", arguments := .otherArgs }
      (Response.ofRequest { seq := n, command := "launch", arguments := .otherArgs }) =
      { session := s
        response := Response.ofRequest { seq := n, command := "launch", arguments := .otherArgs }
        thrown := some e } := by
    unfold routeRequest
    simp [throwingHandlers]
  unfold DebugSession.dispatchRequest
  dsimp only
  rw [hroute]
  dsimp only
  refine ⟨{ request_seq := n, success := false, command := "launch"
            message := some (formatPII "{_stack}" true
              [("_exception", e.message), ("_stack", e.stack)])
            body := some { error := some (buildErrorMessage (.code 1104) "{_stack}"
              (some [("_exception", e.message), ("_stack", e.stack)]) ErrorDestination.Telemetry) } },
          ?_, rfl, rfl, ?_, buildErrorMessage (.code 1104) "{_stack}"
            (some [("_exception", e.message), ("_stack", e.stack)]) ErrorDestination.Telemetry,
          rfl, rfl, rfl, rfl, formatPII_pair_exception e.message e.stack,
          formatPII_pair_stack e.message e.stack⟩
  · rw [sendErrorResponse_sent]
    rfl
  · exact congrArg some (formatPII_pair_stack e.message e.stack)

/-- C1 (amended): every call of sendErrorResponse marks the response failed,
attaches the full error message unmodified to the error slot of the body (a
pre-built message is adopted verbatim), and renders the response message
through the formatter with the redaction flag set, so that, contrary to the
claim, only underscore-prefixed placeholders are substituted: a plain
placeholder with a present value stays literal while an underscore-prefixed
one is substituted. -/
theorem C1_amended :
    (∀ (s : DebugSession) (resp : Response) (com : CodeOrMessage) (fmt : String)
        (vs : Option (List (String × String))) (dest : Nat),
      ∃ r, (s.sendErrorResponse resp com fmt vs dest).sentResponses = s.sentResponses ++ [r] ∧
        r.success = false ∧
        r.message = some (formatPII (buildErrorMessage com fmt vs dest).format true
          ((buildErrorMessage com fmt vs dest).vars.getD [])) ∧
        (r.body.getD {}).error = some (buildErrorMessage com fmt vs dest)) ∧
    (∀ (e : ErrorMessage) (fmt : String) (vs : Option (List (String × String))) (dest : Nat),
      buildErrorMessage (.msg e) fmt vs dest = e) ∧
    (∃ r, (freshSession.sendErrorResponse { request_seq := 1, success := true, command := "launch" }
        (.code 1000) "{user}" (some [("user", "bob")]) ErrorDestination.User).sentResponses = [r] ∧
      r.message = some "{user}") ∧
    (∃ r, (freshSession.sendErrorResponse { request_seq := 1, success := true, command := "launch" }
        (.code 1000) "{_secret}" (some [("_secret", "s3")]) ErrorDestination.User).sentResponses = [r] ∧
      r.message = some "s3") := by
  refine ⟨?_, ?_, ⟨_, rfl, rfl⟩, ⟨_, rfl, rfl⟩⟩
  · intro s resp com fmt vs dest
    exact ⟨_, sendErrorResponse_sent s resp com fmt vs dest, rfl, rfl, rfl⟩
  · intro e fmt vs dest
    rfl

/-- C1 counterexample: a numeric-code call with the template consisting of a
plain placeholder whose value is present renders the literal token into the
response message, not the value, because the user-facing rendering also runs
with the redaction flag set. -/
theorem C1_counterexample :
    ((freshSession.sendErrorResponse { request_seq := 1, success := true, command := "launch" }
        (.code 1000) "{user}" (some [("user", "bob")]) ErrorDestination.User).sentResponses.map
      Response.message) = [some "{user}"] ∧
    (some "{user}" : Option String) ≠ some "bob" := by decide

/-- C10: with the destination parameter left to its default, a numeric-code
error message is built with showUser set and sendTelemetry unset; in general
the showUser flag is set exactly when the destination bitmask includes the
User bit and the sendTelemetry flag exactly when it includes the Telemetry
bit. -/
theorem C10_thm :
    (∀ (s : DebugSession) (resp : Response) (n : Int) (fmt : String)
        (vs : Option (List (String × String))),
      ∃ r, (s.sendErrorResponseDefault resp (.code n) fmt vs).sentResponses =
          s.sentResponses ++ [r] ∧
        ∃ m, (r.body.getD {}).error = some m ∧ m.id = n ∧ m.showUser = some true ∧
          m.sendTelemetry = none) ∧
    (∀ (n : Int) (fmt : String) (vs : Option (List (String × String))) (dest : Nat),
      (buildErrorMessage (.code n) fmt vs dest).showUser =
        (if Nat.land dest ErrorDestination.User ≠ 0 then some true else none) ∧
      (buildErrorMessage (.code n) fmt vs dest).sendTelemetry =
        (if Nat.land dest ErrorDestination.Telemetry ≠ 0 then some true else none)) := by
  constructor
  · intro s resp n fmt vs
    rcases vs with _ | v <;>
      exact ⟨_, sendErrorResponse_sent s resp (.code n) fmt _ ErrorDestination.User,
        _, rfl, rfl, rfl, rfl⟩
  · intro n fmt vs dest
    rcases vs with _ | v <;>
      by_cases h1 : Nat.land dest ErrorDestination.User ≠ 0 <;>
      by_cases h2 : Nat.land dest ErrorDestination.Telemetry ≠ 0 <;>
      simp [buildErrorMessage, h1, h2]

lemma encodeURI_flatten_id : ∀ l : List Char, (∀ c ∈ l, encodeURIUnescaped c = true) →
    List.flatten (l.map (fun c =>
      if encodeURIUnescaped c then [c] else List.flatten ((utf8Bytes c).map percentEncodeByte))) = l := by
  intro l h
  induction l with
  | nil => rfl
  | cons c cs ih =>
    simp only [List.map_cons, List.flatten_cons, h c (by simp), if_pos,
      ih (fun x hx => h x (by simp [hx]))]
    rfl

lemma pathSafe_unescaped (c : Char) (h : pathSafeChar c = true) : encodeURIUnescaped c = true := by
  revert h
  simp only [pathSafeChar, encodeURIUnescaped, Bool.or_eq_true, Bool.and_eq_true,
    decide_eq_true_eq, beq_iff_eq]
  omega

lemma pathSafe_ne_backslash (c : Char) (h : pathSafeChar c = true) : c ≠ '\\' := by
  intro he
  subst he
  exact absurd h (by decide)

lemma pathSafe_ne_qmark (c : Char) (h : pathSafeChar c = true) : c ≠ '?' := by
  intro he
  subst he
  exact absurd h (by decide)

lemma pathSafe_ne_hash (c : Char) (h : pathSafeChar c = true) : c ≠ '#' := by
  intro he
  subst he
  exact absurd h (by decide)

lemma takeWhile_qhash (l : List Char) (h : ∀ c ∈ l, pathSafeChar c = true) :
    l.takeWhile (fun c => !(c == '?' || c == '#')) = l := by
  induction l with
  | nil => rfl
  | cons c cs ih =>
    have hc := h c (by simp)
    have hcs : ∀ x ∈ cs, pathSafeChar x = true := fun x hx => h x (by simp [hx])
    have hpc : (!(c == '?' || c == '#')) = true := by
      simp [pathSafe_ne_qmark c hc, pathSafe_ne_hash c hc]
    rw [@List.takeWhile_cons_of_pos Char (fun c => !(c == '?' || c == '#')) c cs hpc, ih hcs]

lemma map_backslash_id (l : List Char) (h : ∀ c ∈ l, pathSafeChar c = true) :
    l.map (fun c => if c = '\\' then '/' else c) = l := by
  induction l with
  | nil => rfl
  | cons c cs ih =>
    simp [pathSafe_ne_backslash c (h c (by simp)), ih (fun x hx => h x (by simp [hx]))]

lemma uriPathname_file (l : List Char) :
    uriPathname ('f' :: 'i' :: 'l' :: 'e' :: ':' :: '/' :: '/' :: ('/' :: l)) =
      (if (('/' :: l).takeWhile (fun c => !(c == '?' || c == '#'))).isEmpty then none
       else some (('/' :: l).takeWhile (fun c => !(c == '?' || c == '#')))) := rfl

/-- C8: for a rooted path all of whose characters are round-trip safe (ASCII
letters and digits, slash, hyphen, underscore, dot, tilde — characters the URI
encoder passes through unchanged and the URL parser cannot mistake for a
delimiter), converting to a file URI and extracting the pathname of the parsed
URL returns the original path. -/
theorem C8_thm : ∀ (p : String), p.data.head? = some '/' →
    (∀ c ∈ p.data, pathSafeChar c = true) → uri2path (path2uri p) = some p := by
  intro p
  obtain ⟨l⟩ := p
  intro hh hsafe
  cases l with
  | nil => exact absurd hh (by decide)
  | cons c t =>
    have hc : c = '/' := by simpa using hh
    subst hc
    have hmap : (('/' :: t).map (fun c => if c = '\\' then '/' else c)) = '/' :: t :=
      map_backslash_id ('/' :: t) hsafe
    have hp2u : path2uri (String.mk ('/' :: t)) = encodeURI ("file://" ++ String.mk ('/' :: t)) := by
      unfold path2uri
      rw [show ((String.mk ('/' :: t)).data.map (fun c => if c = '\\' then '/' else c)) = '/' :: t from hmap]
      rfl
    have happ : ("file://" ++ String.mk ('/' :: t)) =
        String.mk ('f' :: 'i' :: 'l' :: 'e' :: ':' :: '/' :: '/' :: ('/' :: t)) := by
      simp [String.ext_iff]
    have henc : encodeURI (String.mk ('f' :: 'i' :: 'l' :: 'e' :: ':' :: '/' :: '/' :: ('/' :: t))) =
        String.mk ('f' :: 'i' :: 'l' :: 'e' :: ':' :: '/' :: '/' :: ('/' :: t)) := by
      unfold encodeURI
      rw [encodeURI_flatten_id]
      intro x hx
      simp only [List.mem_cons] at hx
      rcases hx with h | h | h | h | h | h | h | h | hx
      · subst h; decide
      · subst h; decide
      · subst h; decide
      · subst h; decide
      · subst h; decide
      · subst h; decide
      · subst h; decide
      · subst h; decide
      · exact pathSafe_unescaped x (hsafe x (by simp [hx]))
    have hparse : uri2path (String.mk ('f' :: 'i' :: 'l' :: 'e' :: ':' :: '/' :: '/' :: ('/' :: t))) =
        some (String.mk ('/' :: t)) := by
      unfold uri2path
      rw [uriPathname_file t, takeWhile_qhash ('/' :: t) hsafe]
      rfl
    rw [hp2u, happ, henc, hparse]

/-- Witness for C8 at a concrete rooted path. -/
theorem C8_witness : uri2path (path2uri "/tmp/a.txt") = some "/tmp/a.txt" :=
  C8_thm "/tmp/a.txt" (by decide) (by decide)
